import Mathlib

/-!
Shallow embedding of the inventory-reservation engine of
`services/product-service/app/grpc_server.py` (class `ProductServiceServicer`),
together with the data model of
`app/product/models/inventory.py` and `app/product/models/production_reservation.py`.

Modelling conventions:
* UUID values are natural numbers (`int(hex, 16)` of the 32 hex digits);
  `uuidParse` mirrors Python's `uuid.UUID(hex)` constructor: remove every
  occurrence of `urn:` and `uuid:`, strip curly braces from both ends, remove
  every hyphen, and require exactly 32 hex digits (`hexValue` models
  `int(hex, 16)` on plain hex-digit strings).
* Timestamps are natural numbers (seconds); `datetime.now() + timedelta(minutes=15)`
  becomes `now + 15 * 60`.
* The database is an explicit record: an association list of inventory rows per
  product, an association list of product rows, and the list of
  `product_reservations` rows.  The session factory is configured with
  `autoflush=False` (`app/core/database.py`), so selects issued inside
  `ReserveProducts` do not see the staged (pending-add) reservation rows of the
  same call; the model therefore evaluates every availability check against the
  state the call started from, and applies the staged rows only at commit.
* Monetary and timestamp columns irrelevant to the reservation ledger
  (`price`, created/updated audit columns, the surrogate primary key of each
  row) are omitted.
-/

namespace ECom

/-- Fuel-indexed worker for `stripAll`; the fuel bounds the number of steps,
each of which consumes at least one character. -/
def stripAllFuel (pat : List Char) : Nat → List Char → List Char
  | _, [] => []
  | 0, l => l
  | fuel + 1, c :: rest =>
    if pat ≠ [] ∧ pat.isPrefixOf (c :: rest) then
      stripAllFuel pat fuel ((c :: rest).drop pat.length)
    else
      c :: stripAllFuel pat fuel rest

/-- Every occurrence of `pat` is removed from the character list, left to
right and non-overlapping, mirroring Python's `str.replace(pat, "")`. -/
def stripAll (pat : List Char) (s : List Char) : List Char :=
  stripAllFuel pat s.length s

/-- Curly-brace character test used by `str.strip(chars)` with the brace pair. -/
def isUuidBrace (c : Char) : Bool := c = Char.ofNat 123 || c = Char.ofNat 125

/-- Python's `hex.strip(...)` over the brace pair: leading and trailing braces
are removed. -/
def pyStripBraces (s : List Char) : List Char :=
  ((s.dropWhile isUuidBrace).reverse.dropWhile isUuidBrace).reverse

/-- Value of one hexadecimal digit, upper or lower case. -/
def hexDigitVal (c : Char) : Option Nat :=
  if 48 ≤ c.toNat ∧ c.toNat ≤ 57 then some (c.toNat - 48)
  else if 97 ≤ c.toNat ∧ c.toNat ≤ 102 then some (c.toNat - 87)
  else if 65 ≤ c.toNat ∧ c.toNat ≤ 70 then some (c.toNat - 55)
  else none

/-- Models `int(hex, 16)` on a plain string of hex digits. -/
def hexValue (s : List Char) : Option Nat :=
  s.foldl
    (fun acc c =>
      match acc, hexDigitVal c with
      | some a, some v => some (16 * a + v)
      | _, _ => none)
    (some 0)

/-- Models the `uuid.UUID(product_id_str)` constructor call: `some` with the
128-bit integer value when the string parses, `none` when Python would raise
`ValueError`. -/
def uuidParse (s : String) : Option Nat :=
  let cs := stripAll "-".data
    (pyStripBraces (stripAll "uuid:".data (stripAll "urn:".data s.data)))
  if cs.length = 32 then hexValue cs else none

/-- Product ids are UUID values. -/
abbrev ProductId := Nat

/-- Status column of a `product_reservations` row (`ACTIVE`, `RELEASED`,
`EXPIRED`). -/
inductive RStatus where
  | ACTIVE
  | RELEASED
  | EXPIRED
deriving DecidableEq, Repr

/-- Row of the `products` table, restricted to the columns the reservation
engine reads. -/
structure ProductRow where
  name : String
  description : String
  sku : String
  is_active : Bool
deriving DecidableEq, Repr

/-- Row of the `inventory` table: `quantity` is the total stock,
`reserved_quantity` the counter mutated by the reservation engine. -/
structure InventoryRow where
  quantity : Nat
  reserved_quantity : Nat
deriving DecidableEq, Repr

/-- Row of the `product_reservations` table. -/
structure LineItem where
  reservation_id : String
  product_id : ProductId
  quantity : Nat
  reserved_by_user_id : Option String
  reserved_by_service : String
  reservation_reason : String
  reference_id : String
  status : RStatus
  expires_at : Nat
deriving DecidableEq, Repr

/-- Database state visible to the servicer: `products` and `inventories` are
association lists keyed by product id (the schema makes `product_id` unique in
`inventory`), `lineItems` is the `product_reservations` table. -/
structure DBState where
  products : List (ProductId × ProductRow)
  inventories : List (ProductId × InventoryRow)
  lineItems : List LineItem
deriving DecidableEq, Repr

/-- First `products` row with the given id, as returned by
`select(Product).where(Product.id == pid)`. -/
def findProduct (st : DBState) (pid : ProductId) : Option ProductRow :=
  (st.products.find? (fun e => e.1 == pid)).map (·.2)

/-- First `inventory` row with the given product id. -/
def findInventory (st : DBState) (pid : ProductId) : Option InventoryRow :=
  (st.inventories.find? (fun e => e.1 == pid)).map (·.2)

/-- Sum of the quantities of the ACTIVE reservation rows of one product, as
computed by the `total_currently_reserved` query of `ReserveProducts`. -/
def activeSumL (ls : List LineItem) (pid : ProductId) : Nat :=
  ((ls.filter (fun li => li.product_id == pid && li.status == RStatus.ACTIVE)).map
    (·.quantity)).sum

/-- `activeSumL` over the current table. -/
def activeSum (st : DBState) (pid : ProductId) : Nat :=
  activeSumL st.lineItems pid

/-- One requested item of a `ReserveProductsRequest`. -/
structure ReqItem where
  product_id : String
  quantity : Nat
deriving DecidableEq, Repr

/-- One `ProductReservationResult` message. -/
structure ItemResult where
  product_id : String
  success : Bool
  reserved_quantity : Nat
  message : String
deriving DecidableEq, Repr

/-- `ReserveProductsResponse` message. -/
structure ReserveResponse where
  all_reserved : Bool
  results : List ItemResult
  reservation_id : String
deriving DecidableEq, Repr

/-- `ReleaseReservationResponse` message. -/
structure ReleaseResponse where
  success : Bool
  message : String
deriving DecidableEq, Repr

/-- gRPC status codes the servicer aborts with. -/
inductive StatusCode where
  | INVALID_ARGUMENT
  | NOT_FOUND
  | INTERNAL
deriving DecidableEq, Repr

/-- Outcome of one RPC handler: a normal response, or `context.abort(code, ...)`. -/
inductive RpcOut (α : Type) where
  | ok (a : α)
  | abort (code : StatusCode)
deriving DecidableEq, Repr

/-- One iteration of the `for item in products_to_reserve` loop of
`ReserveProducts`: the per-item result message, and the staged
`ProductReservation` row (`session.add`, still uncommitted) when the item
succeeds.  Because the session has `autoflush=False`, every select inside the
loop reads the database state `st` the call started from, never the staged
rows. -/
def itemOutcome (st : DBState) (reservation_id : String) (user_id : Option String)
    (now : Nat) (item : ReqItem) : ItemResult × Option LineItem :=
  match uuidParse item.product_id with
  | none =>
    (⟨item.product_id, false, 0, "Invalid product ID format: " ++ item.product_id⟩, none)
  | some pid =>
    match findProduct st pid, findInventory st pid with
    | some product, some inventory =>
      if !product.is_active then
        (⟨item.product_id, false, 0,
          "Product " ++ item.product_id ++ " is not active"⟩, none)
      else
        let available_qty := inventory.quantity - activeSum st pid
        if available_qty < item.quantity then
          (⟨item.product_id, false, 0,
            "Insufficient stock. Available: " ++ toString available_qty ++
              ", Requested: " ++ toString item.quantity⟩, none)
        else
          (⟨item.product_id, true, item.quantity, "Successfully reserved"⟩,
           some ⟨reservation_id, pid, item.quantity, user_id, "order-service",
                 "ORDER", reservation_id, RStatus.ACTIVE, now + 15 * 60⟩)
    | _, _ =>
      (⟨item.product_id, false, 0, "Product " ++ item.product_id ++ " not found"⟩, none)

/-- Mutable local state of the reservation loop.  `lastParsed` and `lastQty`
track the Python loop variables `product_id_uuid` and `quantity`, which leak
out of the loop and are read by the commit block. -/
structure LoopAcc where
  results : List ItemResult
  all_reserved : Bool
  staged : List LineItem
  lastParsed : Option ProductId
  lastQty : Nat
deriving DecidableEq, Repr

/-- Loop state before the first iteration. -/
def initAcc : LoopAcc := ⟨[], true, [], none, 0⟩

/-- One step of the reservation loop. -/
def reserveStep (st : DBState) (reservation_id : String) (user_id : Option String)
    (now : Nat) (acc : LoopAcc) (item : ReqItem) : LoopAcc :=
  let r := itemOutcome st reservation_id user_id now item
  { results := acc.results ++ [r.1]
    all_reserved := acc.all_reserved && r.1.success
    staged := acc.staged ++ r.2.toList
    lastParsed :=
      match uuidParse item.product_id with
      | some pid => some pid
      | none => acc.lastParsed
    lastQty := item.quantity }

/-- Replaces the `reserved_quantity` of every `inventory` row of one product. -/
def updReserved (invs : List (ProductId × InventoryRow)) (pid : ProductId)
    (newRes : Nat) : List (ProductId × InventoryRow) :=
  invs.map (fun e =>
    if e.1 == pid then (e.1, { e.2 with reserved_quantity := newRes }) else e)

/-- Commit block of `ReserveProducts` (the code after the loop).  If
`all_reserved` is still true it re-selects the inventory row of
`product_id_uuid` — the leaked loop variable, i.e. the **last** item's
product — sets its `reserved_quantity` to `(reserved_quantity or 0) + quantity`
with `quantity` the last item's amount, and commits the staged rows together
with that single counter update; otherwise the session is rolled back and
nothing changes.  On an empty request the commit block raises `NameError`
(the loop variable was never bound), which the blanket handler maps to an
INTERNAL abort; a missing inventory row makes `scalar_one()` raise, likewise
INTERNAL. -/
def reserveCommit (st : DBState) (reservation_id : String) (acc : LoopAcc) :
    RpcOut ReserveResponse × DBState :=
  if acc.all_reserved then
    match acc.lastParsed with
    | none => (RpcOut.abort StatusCode.INTERNAL, st)
    | some pid =>
      match findInventory st pid with
      | none => (RpcOut.abort StatusCode.INTERNAL, st)
      | some inv =>
        (RpcOut.ok ⟨true, acc.results, reservation_id⟩,
         { st with
             inventories := updReserved st.inventories pid
               (inv.reserved_quantity + acc.lastQty)
             lineItems := st.lineItems ++ acc.staged })
  else
    (RpcOut.ok ⟨false, acc.results, reservation_id⟩, st)

/-- The `ReserveProducts` handler: run the per-item loop over the request,
then the commit block. -/
def reserveProducts (st : DBState) (reservation_id : String) (items : List ReqItem)
    (user_id : Option String) (now : Nat) : RpcOut ReserveResponse × DBState :=
  reserveCommit st reservation_id
    (items.foldl (reserveStep st reservation_id user_id now) initAcc)

/-- ACTIVE rows of one reservation id, as selected by `ReleaseReservation` and
`_release_reservation_internal_db`. -/
def activeOf (st : DBState) (rid : String) : List LineItem :=
  st.lineItems.filter
    (fun li => li.reservation_id == rid && li.status == RStatus.ACTIVE)

/-- Decrements (clamped at zero) the `reserved_quantity` of one product's
inventory row, `max(0, current_reserved - quantity)`; a missing row is skipped
(`scalar_one_or_none` returned `None`). -/
def decReserved (invs : List (ProductId × InventoryRow)) (pid : ProductId)
    (q : Nat) : List (ProductId × InventoryRow) :=
  invs.map (fun e =>
    if e.1 == pid then
      (e.1, { e.2 with reserved_quantity := e.2.reserved_quantity - q })
    else e)

/-- `_release_reservation_internal_db`: every ACTIVE row of the reservation is
marked RELEASED, and for each such row (in table order) the product's
`reserved_quantity` is decremented, clamped at zero.  The per-row inventory
select hits the session identity map, so successive decrements of the same
product accumulate before the final commit. -/
def releaseInternalDb (st : DBState) (rid : String) : DBState :=
  { st with
      lineItems := st.lineItems.map (fun li =>
        if li.reservation_id == rid && li.status == RStatus.ACTIVE then
          { li with status := RStatus.RELEASED }
        else li)
      inventories := (activeOf st rid).foldl
        (fun invs li => decReserved invs li.product_id li.quantity)
        st.inventories }

/-- The `ReleaseReservation` handler: if the reservation has no ACTIVE row the
response is a failure and nothing is written; otherwise the rows are released
and the transaction committed. -/
def releaseReservation (st : DBState) (rid : String) : ReleaseResponse × DBState :=
  if (activeOf st rid).isEmpty then
    (⟨false, "Reservation " ++ rid ++ " not found or already released"⟩, st)
  else
    (⟨true, "Reservation released successfully"⟩, releaseInternalDb st rid)

/-- The `GetProductResponse` message, restricted to the columns the model
carries (`price` omitted). -/
structure GetProductResponse where
  product_id : String
  name : String
  description : String
  stock_quantity : Nat
  reserved_quantity : Nat
  available_quantity : Nat
  is_active : Bool
  sku : String
deriving DecidableEq, Repr

/-- The `GetProduct` handler: a malformed id aborts with INVALID_ARGUMENT
before any database access; a missing product (or missing inventory row — the
query is an inner join) aborts with NOT_FOUND; otherwise the response reports
`available = max(0, stock - reserved)`. -/
def getProduct (st : DBState) (product_id_str : String) : RpcOut GetProductResponse :=
  match uuidParse product_id_str with
  | none => RpcOut.abort StatusCode.INVALID_ARGUMENT
  | some pid =>
    match findProduct st pid, findInventory st pid with
    | some product, some inventory =>
      RpcOut.ok
        ⟨product_id_str, product.name, product.description,
         inventory.quantity, inventory.reserved_quantity,
         inventory.quantity - inventory.reserved_quantity,
         product.is_active, product.sku⟩
    | _, _ => RpcOut.abort StatusCode.NOT_FOUND

/-- Full servicer state: the database plus `self.reservations`, the in-memory
map initialised to `{}` in `__init__` and never written again — no handler
inserts into it. -/
structure ServicerState where
  db : DBState
  memReservations : List (String × Nat)
deriving DecidableEq, Repr

/-- The reservation ids one tick of `cleanup_expired_reservations` collects:
entries of the in-memory map whose `expires_at` lies before `now`. -/
def expiredMemReservations (s : ServicerState) (now : Nat) : List String :=
  (s.memReservations.filter (fun e => now > e.2)).map (·.1)

/-- One tick of the background cleanup task.  For each collected id the code
calls `self._release_reservation_internal(reservation_id)` — a method that
does not exist on the class, so the call raises `AttributeError` before any
database access and the blanket `except Exception` swallows it; and since
`self.reservations` is never populated, the collected list is empty anyway.
Either way neither the database nor the map changes. -/
def cleanupTick (s : ServicerState) (now : Nat) : ServicerState :=
  let _expired := expiredMemReservations s now
  s

/-- One serialized operation on the servicer: the `reservation_lock` held by
`ReserveProducts`, `ReleaseReservation` and the cleanup loop serializes them,
so any concurrent execution is equivalent to some sequence of these. -/
inductive Op where
  | reserve (rid : String) (items : List ReqItem) (uid : Option String) (now : Nat)
  | release (rid : String)
  | tick (now : Nat)

/-- Effect of one serialized operation on the servicer state. -/
def applyOp (s : ServicerState) : Op → ServicerState
  | Op.reserve rid items uid now =>
    { s with db := (reserveProducts s.db rid items uid now).2 }
  | Op.release rid =>
    { s with db := (releaseReservation s.db rid).2 }
  | Op.tick now => cleanupTick s now

/-- Effect of a sequence of serialized operations. -/
def runOps (s : ServicerState) (ops : List Op) : ServicerState :=
  ops.foldl applyOp s

/-! Concrete example states used by counterexamples and witnesses. -/

/-- Well-formed UUID string with value 1. -/
def exIdA : String := "00000000000000000000000000000001"

/-- Well-formed UUID string with value 2. -/
def exIdB : String := "00000000000000000000000000000002"

/-- An active catalog product. -/
def exProductA : ProductRow := ⟨"A", "", "SKU-A", true⟩

/-- A second active catalog product. -/
def exProductB : ProductRow := ⟨"B", "", "SKU-B", true⟩

/-- Two active products, ten in stock each, nothing reserved. -/
def exSt2 : DBState :=
  ⟨[(1, exProductA), (2, exProductB)], [(1, ⟨10, 0⟩), (2, ⟨10, 0⟩)], []⟩

/-- One active product, five in stock, nothing reserved. -/
def exSt5 : DBState :=
  ⟨[(1, exProductA)], [(1, ⟨5, 0⟩)], []⟩

/-- One active product whose `reserved_quantity` counter equals its total
stock while no ACTIVE reservation row exists: `0 ≤ reserved ≤ total` holds,
but the counter is out of sync with the reservation table. -/
def exStBad : DBState :=
  ⟨[(1, exProductA)], [(1, ⟨5, 5⟩)], []⟩

/-- An ACTIVE reservation row that expired at time 100. -/
def exLi4 : LineItem :=
  ⟨"r1", 1, 3, none, "order-service", "ORDER", "r1", RStatus.ACTIVE, 100⟩

/-- Servicer state holding the expired row `exLi4`, with the matching
`reserved_quantity = 3`, and the (always empty) in-memory map. -/
def exSrv4 : ServicerState :=
  ⟨⟨[(1, exProductA)], [(1, ⟨5, 3⟩)], [exLi4]⟩, []⟩

/-- One active product, five in stock, with an ACTIVE row of three already
held by an unrelated reservation. -/
def exSt8 : DBState :=
  ⟨[(1, exProductA)], [(1, ⟨5, 0⟩)],
   [⟨"rx", 1, 3, none, "order-service", "ORDER", "rx", RStatus.ACTIVE, 900⟩]⟩

/-- A reservation whose single ACTIVE row references product 9, for which no
inventory row exists. -/
def exSt10 : DBState :=
  ⟨[(9, exProductA)], [],
   [⟨"r9", 9, 4, none, "order-service", "ORDER", "r9", RStatus.ACTIVE, 900⟩]⟩

/-- Sum of the quantities of the rows of one product within a list of
reservation rows (the amount a release pass subtracts for that product). -/
def releasedSum (items : List LineItem) (pid : ProductId) : Nat :=
  ((items.filter (fun li => li.product_id == pid)).map (·.quantity)).sum

/-- Ledger well-formedness: inventory rows have distinct product ids (the
schema's unique constraint), and every product's `reserved_quantity` counter
is bounded by its total stock and by the sum of its ACTIVE reservation rows.
The counter bound by the ACTIVE sum is what the code actually maintains: the
availability check reads the ACTIVE rows, while the commit block increments
the counter of the last item's product only. -/
@[reducible] def LedgerInv (db : DBState) : Prop :=
  (db.inventories.map (·.1)).Nodup ∧
  ∀ e ∈ db.inventories,
    e.2.reserved_quantity ≤ e.2.quantity ∧ e.2.reserved_quantity ≤ activeSum db e.1

/-! Helper lemmas about the reservation loop and the release pass. -/

/-- The per-item results collected by the reservation loop are a map over the
items: with `autoflush=False` each iteration reads the same database state,
independent of the accumulator. -/
theorem foldl_reserveStep_results (st : DBState) (rid : String) (uid : Option String)
    (now : Nat) (items : List ReqItem) (acc : LoopAcc) :
    (items.foldl (reserveStep st rid uid now) acc).results =
      acc.results ++ items.map (fun it => (itemOutcome st rid uid now it).1) := by
  induction items generalizing acc with
  | nil => simp
  | cons it rest ih =>
    simp [List.foldl_cons, ih, reserveStep]

/-- The `all_reserved` flag after the loop is the conjunction of the per-item
successes. -/
theorem foldl_reserveStep_all (st : DBState) (rid : String) (uid : Option String)
    (now : Nat) (items : List ReqItem) (acc : LoopAcc) :
    (items.foldl (reserveStep st rid uid now) acc).all_reserved =
      (acc.all_reserved && items.all (fun it => (itemOutcome st rid uid now it).1.success)) := by
  induction items generalizing acc with
  | nil => simp
  | cons it rest ih =>
    simp [List.foldl_cons, ih, reserveStep, Bool.and_assoc]

/-- The staged rows after the loop are the `filterMap` of the per-item staged
rows. -/
theorem foldl_reserveStep_staged (st : DBState) (rid : String) (uid : Option String)
    (now : Nat) (items : List ReqItem) (acc : LoopAcc) :
    (items.foldl (reserveStep st rid uid now) acc).staged =
      acc.staged ++ items.filterMap (fun it => (itemOutcome st rid uid now it).2) := by
  induction items generalizing acc with
  | nil => simp
  | cons it rest ih =>
    cases h : (itemOutcome st rid uid now it).2 <;>
      simp [List.foldl_cons, ih, reserveStep, List.filterMap_cons, h]

/-- Inversion of a successful loop iteration: the id parsed, the product was
found and active, the requested amount fit below `total - active-sum`, and the
iteration staged exactly one ACTIVE row for that product and amount. -/
theorem itemOutcome_success_inv (st : DBState) (rid : String) (uid : Option String)
    (now : Nat) (it : ReqItem)
    (h : (itemOutcome st rid uid now it).1.success = true) :
    ∃ pid prod inv,
      uuidParse it.product_id = some pid ∧
      findProduct st pid = some prod ∧
      findInventory st pid = some inv ∧
      prod.is_active = true ∧
      it.quantity ≤ inv.quantity - activeSum st pid ∧
      (itemOutcome st rid uid now it).2 =
        some ⟨rid, pid, it.quantity, uid, "order-service", "ORDER", rid,
              RStatus.ACTIVE, now + 15 * 60⟩ := by
  cases hp : uuidParse it.product_id with
  | none => simp [itemOutcome, hp] at h
  | some pid =>
    cases hprod : findProduct st pid with
    | none => simp [itemOutcome, hp, hprod] at h
    | some prod =>
      cases hinv : findInventory st pid with
      | none => simp [itemOutcome, hp, hprod, hinv] at h
      | some inv =>
        by_cases hact : prod.is_active = true
        · by_cases hlt : inv.quantity - activeSum st pid < it.quantity
          · simp [itemOutcome, hp, hprod, hinv, hact, hlt] at h
          · refine ⟨pid, prod, inv, rfl, hprod, hinv, hact, Nat.le_of_not_lt hlt, ?_⟩
            simp [itemOutcome, hp, hprod, hinv, hact, hlt]
        · rw [Bool.not_eq_true] at hact
          simp [itemOutcome, hp, hprod, hinv, hact] at h

/-- Results of the loop run from the initial accumulator. -/
theorem reserve_results_eq (st : DBState) (rid : String) (uid : Option String)
    (now : Nat) (items : List ReqItem) :
    (items.foldl (reserveStep st rid uid now) initAcc).results =
      items.map (fun it => (itemOutcome st rid uid now it).1) := by
  rw [foldl_reserveStep_results]
  rfl

/-- Flag of the loop run from the initial accumulator. -/
theorem reserve_all_eq (st : DBState) (rid : String) (uid : Option String)
    (now : Nat) (items : List ReqItem) :
    (items.foldl (reserveStep st rid uid now) initAcc).all_reserved =
      items.all (fun it => (itemOutcome st rid uid now it).1.success) := by
  rw [foldl_reserveStep_all]
  rfl

/-- Staged rows of the loop run from the initial accumulator. -/
theorem reserve_staged_eq (st : DBState) (rid : String) (uid : Option String)
    (now : Nat) (items : List ReqItem) :
    (items.foldl (reserveStep st rid uid now) initAcc).staged =
      items.filterMap (fun it => (itemOutcome st rid uid now it).2) := by
  rw [foldl_reserveStep_staged]
  rfl

/-- A failed per-item result forces `all_reserved = false`, hence rollback:
the database after the call is exactly the database before it. -/
theorem reserve_rollback_of_not_all (st : DBState) (rid : String)
    (items : List ReqItem) (uid : Option String) (now : Nat)
    (h : (items.foldl (reserveStep st rid uid now) initAcc).all_reserved = false) :
    reserveProducts st rid items uid now =
      (RpcOut.ok ⟨false, (items.foldl (reserveStep st rid uid now) initAcc).results, rid⟩,
       st) := by
  unfold reserveProducts reserveCommit
  simp [h]

/-- Inversion of a non-aborted `ReserveProducts` call: the response's results
are the per-item outcomes in request order, and `all_reserved` is the
conjunction of the per-item successes. -/
theorem reserve_ok_inv (st : DBState) (rid : String) (items : List ReqItem)
    (uid : Option String) (now : Nat) (resp : ReserveResponse)
    (hok : (reserveProducts st rid items uid now).1 = RpcOut.ok resp) :
    resp.results = items.map (fun it => (itemOutcome st rid uid now it).1) ∧
    resp.all_reserved = items.all (fun it => (itemOutcome st rid uid now it).1.success) := by
  have hall := reserve_all_eq st rid uid now items
  have hres := reserve_results_eq st rid uid now items
  unfold reserveProducts reserveCommit at hok
  split at hok
  · rename_i hb
    rw [hb] at hall
    split at hok
    · simp at hok
    · split at hok
      · simp at hok
      · simp only [RpcOut.ok.injEq] at hok
        subst hok
        exact ⟨hres, hall⟩
  · rename_i hb
    rw [Bool.not_eq_true] at hb
    rw [hb] at hall
    simp only [RpcOut.ok.injEq] at hok
    subst hok
    exact ⟨hres, hall⟩

/-- Claim C2: whenever any per-item result of a `Reserve` call reports
failure, the whole transaction is rolled back: the database — in particular
the `reserved_quantity` of every requested product and the reservation table —
is exactly what it was before the call (all-or-nothing at batch level). -/
theorem C2_any_failure_rolls_back (st : DBState) (rid : String) (items : List ReqItem)
    (uid : Option String) (now : Nat) (resp : ReserveResponse)
    (hok : (reserveProducts st rid items uid now).1 = RpcOut.ok resp)
    (hfail : ∃ r ∈ resp.results, r.success = false) :
    (reserveProducts st rid items uid now).2 = st := by
  obtain ⟨hres, _⟩ := reserve_ok_inv st rid items uid now resp hok
  obtain ⟨r, hr, hrf⟩ := hfail
  rw [hres] at hr
  obtain ⟨it, hit, hitr⟩ := List.mem_map.mp hr
  have hallf : (items.foldl (reserveStep st rid uid now) initAcc).all_reserved = false := by
    rw [foldl_reserveStep_all]
    simp only [initAcc, Bool.true_and]
    rw [List.all_eq_false]
    exact ⟨it, hit, by rw [hitr, hrf]; simp⟩
  rw [reserve_rollback_of_not_all st rid items uid now hallf]

/-- Witness for C2: a single-item request for 9 of a product with only 5
available fails and leaves the example state untouched. -/
theorem C2_any_failure_rolls_back_witness :
    (reserveProducts exSt5 "r" [⟨exIdA, 9⟩] none 0).2 = exSt5 :=
  C2_any_failure_rolls_back exSt5 "r" [⟨exIdA, 9⟩] none 0
    ⟨false, [⟨exIdA, false, 0, "Insufficient stock. Available: 5, Requested: 9"⟩], "r"⟩
    (by decide) (by decide)

/-- Claim C6: any requested item whose product exists and is active but whose
available quantity `total - sum(ACTIVE rows)` (clamped at zero) is below the
requested amount produces the per-item result
`success=false, "Insufficient stock. Available: {a}, Requested: {q}"` at the
item's position, stages no reservation row, and — the batch being rejected —
leaves the database untouched. -/
theorem C6_insufficient_stock_item (st : DBState) (rid : String) (uid : Option String)
    (now : Nat) (items : List ReqItem) (i : Nat) (it : ReqItem) (pid : ProductId)
    (prod : ProductRow) (inv : InventoryRow)
    (hi : items[i]? = some it)
    (hparse : uuidParse it.product_id = some pid)
    (hprod : findProduct st pid = some prod)
    (hact : prod.is_active = true)
    (hinv : findInventory st pid = some inv)
    (hlt : inv.quantity - activeSum st pid < it.quantity) :
    ∃ resp, (reserveProducts st rid items uid now).1 = RpcOut.ok resp ∧
      resp.all_reserved = false ∧
      resp.results[i]? = some
        ⟨it.product_id, false, 0,
         "Insufficient stock. Available: " ++ toString (inv.quantity - activeSum st pid) ++
           ", Requested: " ++ toString it.quantity⟩ ∧
      (itemOutcome st rid uid now it).2 = none ∧
      (reserveProducts st rid items uid now).2 = st := by
  have houtc : itemOutcome st rid uid now it =
      (⟨it.product_id, false, 0,
        "Insufficient stock. Available: " ++ toString (inv.quantity - activeSum st pid) ++
          ", Requested: " ++ toString it.quantity⟩, none) := by
    simp [itemOutcome, hparse, hprod, hinv, hact, hlt]
  have hmem : it ∈ items := by
    obtain ⟨hlen, rfl⟩ := List.getElem?_eq_some_iff.mp hi
    exact List.getElem_mem hlen
  have hallf : (items.foldl (reserveStep st rid uid now) initAcc).all_reserved = false := by
    rw [reserve_all_eq, List.all_eq_false]
    exact ⟨it, hmem, by rw [houtc]; simp⟩
  have hrb := reserve_rollback_of_not_all st rid items uid now hallf
  refine ⟨⟨false, (items.foldl (reserveStep st rid uid now) initAcc).results, rid⟩,
    by rw [hrb], rfl, ?_, by rw [houtc], by rw [hrb]⟩
  show ((items.foldl (reserveStep st rid uid now) initAcc).results)[i]? = _
  rw [reserve_results_eq, List.getElem?_map, hi]
  simp only [Option.map_some']
  rw [houtc]

/-- Witness for C6: requesting 9 of a product with 5 in stock and no ACTIVE
row yields the insufficient-stock result and leaves the state unchanged. -/
theorem C6_insufficient_stock_item_witness :
    ∃ resp, (reserveProducts exSt5 "r" [⟨exIdA, 9⟩] none 0).1 = RpcOut.ok resp ∧
      resp.all_reserved = false ∧
      resp.results[0]? = some
        ⟨exIdA, false, 0, "Insufficient stock. Available: 5, Requested: 9"⟩ ∧
      (itemOutcome exSt5 "r" none 0 ⟨exIdA, 9⟩).2 = none ∧
      (reserveProducts exSt5 "r" [⟨exIdA, 9⟩] none 0).2 = exSt5 :=
  C6_insufficient_stock_item exSt5 "r" none 0 [⟨exIdA, 9⟩] 0 ⟨exIdA, 9⟩ 1
    exProductA ⟨5, 0⟩ (by decide) (by decide) (by decide) (by decide)
    (by decide) (by decide)

/-- Finding by key commutes with a key-preserving row update. -/
theorem find?_map_fst (g : ProductId × InventoryRow → ProductId × InventoryRow)
    (hg : ∀ e, (g e).1 = e.1) (l : List (ProductId × InventoryRow)) (k : ProductId) :
    (l.map g).find? (fun e => e.1 == k) = (l.find? (fun e => e.1 == k)).map g := by
  induction l with
  | nil => rfl
  | cons a l ih =>
    by_cases h : (a.1 == k) = true
    · have hga : ((g a).1 == k) = true := by rw [hg a]; exact h
      have eg : List.find? (fun e => e.1 == k) (g a :: l.map g) = some (g a) :=
        List.find?_cons_of_pos (l.map g) hga
      have ea : List.find? (fun e => e.1 == k) (a :: l) = some a :=
        List.find?_cons_of_pos l h
      rw [List.map_cons, eg, ea, Option.map_some']
    · have hga : ¬ ((g a).1 == k) = true := by rw [hg a]; exact h
      have eg : List.find? (fun e => e.1 == k) (g a :: l.map g) =
          List.find? (fun e => e.1 == k) (l.map g) :=
        List.find?_cons_of_neg (l.map g) hga
      have ea : List.find? (fun e => e.1 == k) (a :: l) =
          List.find? (fun e => e.1 == k) l :=
        List.find?_cons_of_neg l h
      rw [List.map_cons, eg, ea, ih]

/-- The release pass over a list of rows decrements each product's counter by
the total quantity of its rows in the list, clamped at zero: sequential
clamped subtraction folds into one clamped subtraction of the sum. -/
theorem foldl_decReserved (items : List LineItem) (invs : List (ProductId × InventoryRow)) :
    items.foldl (fun acc li => decReserved acc li.product_id li.quantity) invs =
      invs.map (fun e =>
        (e.1, ⟨e.2.quantity, e.2.reserved_quantity - releasedSum items e.1⟩)) := by
  induction items generalizing invs with
  | nil =>
    show invs = _
    exact (List.map_id invs).symm
  | cons li rest ih =>
    rw [List.foldl_cons, ih]
    unfold decReserved
    rw [List.map_map]
    apply List.map_congr_left
    intro e _
    by_cases h : (e.1 == li.product_id) = true
    · have h1 : e.1 = li.product_id := by simpa using h
      have h2 : (li.product_id == e.1) = true := by simp [h1]
      simp [Function.comp, h, h2, releasedSum, List.filter_cons, Nat.sub_sub]
    · have h1 : ¬ e.1 = li.product_id := by simpa using h
      have h2 : (li.product_id == e.1) = false := by
        simp only [beq_eq_false_iff_ne, ne_eq]
        exact fun he => h1 he.symm
      simp [Function.comp, h, h2, releasedSum, List.filter_cons]

/-- Inventory table produced by `_release_reservation_internal_db`. -/
theorem releaseInternalDb_inventories (st : DBState) (rid : String) :
    (releaseInternalDb st rid).inventories =
      st.inventories.map (fun e =>
        (e.1, ⟨e.2.quantity,
               e.2.reserved_quantity - releasedSum (activeOf st rid) e.1⟩)) :=
  foldl_decReserved (activeOf st rid) st.inventories

/-- A release of a reservation with no ACTIVE rows reports failure and leaves
the database untouched. -/
theorem release_not_found (st : DBState) (rid : String)
    (h : activeOf st rid = []) :
    releaseReservation st rid =
      (⟨false, "Reservation " ++ rid ++ " not found or already released"⟩, st) := by
  unfold releaseReservation
  rw [h]
  rfl

/-- After any `ReleaseReservation` call the reservation has no ACTIVE row
left: either there were none, or they were all marked RELEASED. -/
theorem activeOf_release (st : DBState) (rid : String) :
    activeOf (releaseReservation st rid).2 rid = [] := by
  unfold releaseReservation
  by_cases h : (activeOf st rid).isEmpty
  · rw [if_pos h]
    exact List.isEmpty_iff.mp h
  · rw [if_neg h]
    show (releaseInternalDb st rid).lineItems.filter _ = []
    unfold releaseInternalDb
    rw [List.filter_eq_nil_iff]
    intro li' hmem
    obtain ⟨li, _, rfl⟩ := List.mem_map.mp hmem
    by_cases hm : (li.reservation_id == rid && li.status == RStatus.ACTIVE) = true
    · simp [hm]
    · simp only [hm, if_false]
      simpa using hm

/-- Claim C7: releasing a reservation id that has no ACTIVE row returns
`success=false` with the not-found/already-released message and changes
nothing; after any release no ACTIVE row remains, so a second `Release` of
the same id reports failure and leaves the database exactly as the first call
left it. -/
theorem C7_release_idempotent (st : DBState) (rid : String) :
    (activeOf st rid = [] →
      releaseReservation st rid =
        (⟨false, "Reservation " ++ rid ++ " not found or already released"⟩, st)) ∧
    activeOf (releaseReservation st rid).2 rid = [] ∧
    releaseReservation (releaseReservation st rid).2 rid =
      (⟨false, "Reservation " ++ rid ++ " not found or already released"⟩,
       (releaseReservation st rid).2) :=
  ⟨release_not_found st rid, activeOf_release st rid,
   release_not_found (releaseReservation st rid).2 rid (activeOf_release st rid)⟩

/-- Witness for C7: releasing an id that never existed fails and leaves the
example state unchanged. -/
theorem C7_release_idempotent_witness :
    releaseReservation exSt5 "nope" =
      (⟨false, "Reservation " ++ "nope" ++ " not found or already released"⟩, exSt5) :=
  (C7_release_idempotent exSt5 "nope").1 (by decide)

/-- Claim C8 amended: only `GetProduct` rejects a malformed product id with
INVALID_ARGUMENT before any ledger access — the outcome is the same for every
database state, so no ledger read can influence it.  `ReserveProducts` does
not abort on a malformed id: the request is answered normally with a
per-item failure (and the batch rejected), and the remaining items are still
evaluated against the ledger. -/
theorem C8_malformed_id_rejected (st : DBState) (s : String)
    (h : uuidParse s = none) :
    getProduct st s = RpcOut.abort StatusCode.INVALID_ARGUMENT ∧
    ∀ (rid : String) (uid : Option String) (now : Nat) (items : List ReqItem) (q : Nat),
      ∃ resp, (reserveProducts st rid (⟨s, q⟩ :: items) uid now).1 = RpcOut.ok resp ∧
        resp.all_reserved = false := by
  constructor
  · unfold getProduct
    rw [h]
  · intro rid uid now items q
    have hallf : ((⟨s, q⟩ :: items : List ReqItem).foldl
        (reserveStep st rid uid now) initAcc).all_reserved = false := by
      rw [reserve_all_eq, List.all_eq_false]
      exact ⟨⟨s, q⟩, List.mem_cons_self _ _, by simp [itemOutcome, h]⟩
    have hrb := reserve_rollback_of_not_all st rid _ uid now hallf
    exact ⟨⟨false, _, rid⟩, by rw [hrb], rfl⟩

/-- Witness for C8 amended: the malformed id `zzz`. -/
theorem C8_malformed_id_rejected_witness :
    getProduct exSt5 "zzz" = RpcOut.abort StatusCode.INVALID_ARGUMENT ∧
    ∃ resp, (reserveProducts exSt5 "r" [⟨"zzz", 1⟩] none 0).1 = RpcOut.ok resp ∧
      resp.all_reserved = false :=
  ⟨(C8_malformed_id_rejected exSt5 "zzz" (by decide)).1,
   (C8_malformed_id_rejected exSt5 "zzz" (by decide)).2 "r" none 0 [] 1⟩

/-- Claim C10: if a reservation has ACTIVE rows but some row's product has no
inventory row, `ReleaseReservation` still succeeds, marks every ACTIVE row of
the reservation RELEASED, and silently skips the counter decrement of every
product without an inventory row (no row is created for it either). -/
theorem C10_release_skips_missing_inventory (st : DBState) (rid : String)
    (hne : activeOf st rid ≠ [])
    (_hmiss : ∃ li ∈ activeOf st rid, findInventory st li.product_id = none) :
    (releaseReservation st rid).1 = ⟨true, "Reservation released successfully"⟩ ∧
    activeOf (releaseReservation st rid).2 rid = [] ∧
    ∀ pid, findInventory st pid = none →
      findInventory (releaseReservation st rid).2 pid = none := by
  have hie : ¬ (activeOf st rid).isEmpty = true := by
    rw [List.isEmpty_iff]
    exact hne
  refine ⟨?_, activeOf_release st rid, ?_⟩
  · unfold releaseReservation
    rw [if_neg hie]
  · intro pid hnone
    unfold releaseReservation
    rw [if_neg hie]
    show ((releaseInternalDb st rid).inventories.find? (fun e => e.1 == pid)).map (·.2) = none
    rw [releaseInternalDb_inventories]
    rw [find?_map_fst
      (fun e =>
        (e.1, ⟨e.2.quantity, e.2.reserved_quantity - releasedSum (activeOf st rid) e.1⟩))
      (fun e => rfl) st.inventories pid]
    unfold findInventory at hnone
    cases hfind : st.inventories.find? (fun e => e.1 == pid) with
    | none => rfl
    | some e => rw [hfind] at hnone; simp at hnone

/-- Witness for C10: a reservation whose single ACTIVE row references product
9, which has no inventory row at all. -/
theorem C10_release_skips_missing_inventory_witness :
    (releaseReservation exSt10 "r9").1 =
      ⟨true, "Reservation released successfully"⟩ ∧
    activeOf (releaseReservation exSt10 "r9").2 "r9" = [] ∧
    findInventory (releaseReservation exSt10 "r9").2 9 = none :=
  ⟨(C10_release_skips_missing_inventory exSt10 "r9" (by decide) (by decide)).1,
   (C10_release_skips_missing_inventory exSt10 "r9" (by decide) (by decide)).2.1,
   (C10_release_skips_missing_inventory exSt10 "r9" (by decide) (by decide)).2.2 9 (by decide)⟩

/-- Contribution of one row to the ACTIVE sum of a product. -/
theorem activeSumL_cons (li : LineItem) (ls : List LineItem) (p : ProductId) :
    activeSumL (li :: ls) p =
      (if (li.product_id == p && li.status == RStatus.ACTIVE) = true then li.quantity
       else 0) + activeSumL ls p := by
  unfold activeSumL
  rw [List.filter_cons]
  by_cases h : (li.product_id == p && li.status == RStatus.ACTIVE) = true <;> simp [h]

/-- Contribution of one row to the released sum of a product. -/
theorem releasedSum_cons (li : LineItem) (ls : List LineItem) (p : ProductId) :
    releasedSum (li :: ls) p =
      (if (li.product_id == p) = true then li.quantity else 0) + releasedSum ls p := by
  unfold releasedSum
  rw [List.filter_cons]
  by_cases h : (li.product_id == p) = true <;> simp [h]

/-- ACTIVE sums add over concatenation of row lists. -/
theorem activeSumL_append (l1 l2 : List LineItem) (p : ProductId) :
    activeSumL (l1 ++ l2) p = activeSumL l1 p + activeSumL l2 p := by
  unfold activeSumL
  rw [List.filter_append, List.map_append, List.sum_append]

/-- Marking the ACTIVE rows of one reservation RELEASED removes exactly their
quantities from each product's ACTIVE sum. -/
theorem activeSumL_release_list (rid : String) (p : ProductId) (ls : List LineItem) :
    activeSumL (ls.map (fun li =>
        if li.reservation_id == rid && li.status == RStatus.ACTIVE then
          { li with status := RStatus.RELEASED } else li)) p
      + releasedSum (ls.filter
          (fun li => li.reservation_id == rid && li.status == RStatus.ACTIVE)) p
    = activeSumL ls p := by
  induction ls with
  | nil => rfl
  | cons li rest ih =>
    rw [List.map_cons, List.filter_cons]
    by_cases hm : (li.reservation_id == rid && li.status == RStatus.ACTIVE) = true
    · have hstat : li.status = RStatus.ACTIVE := by
        have h2 := (Bool.and_eq_true _ _).mp hm
        exact beq_iff_eq.mp h2.2
      rw [if_pos hm, if_pos hm]
      rw [activeSumL_cons, releasedSum_cons, activeSumL_cons]
      have hrel : (({ li with status := RStatus.RELEASED } : LineItem).product_id == p &&
          ({ li with status := RStatus.RELEASED } : LineItem).status == RStatus.ACTIVE) =
          false := by
        simp
      rw [hrel]
      by_cases hp : (li.product_id == p) = true
      · simp only [hp, hstat, beq_self_eq_true, Bool.and_true, Bool.false_eq_true,
          if_true, if_false]
        omega
      · simp only [hp, hstat, beq_self_eq_true, Bool.and_true, Bool.false_eq_true,
          if_false]
        omega
    · rw [if_neg hm, if_neg hm]
      rw [activeSumL_cons, activeSumL_cons]
      omega

/-- Release decreases each product's ACTIVE sum by exactly the released
amount. -/
theorem activeSum_release (st : DBState) (rid : String) (p : ProductId) :
    activeSumL (releaseInternalDb st rid).lineItems p + releasedSum (activeOf st rid) p =
      activeSum st p :=
  activeSumL_release_list rid p st.lineItems

/-- In a table with pairwise-distinct keys, `find?` by the key of a member
returns that member. -/
theorem find?_of_mem_nodup (l : List (ProductId × InventoryRow))
    (hnd : (l.map (·.1)).Nodup) (e : ProductId × InventoryRow) (he : e ∈ l) :
    l.find? (fun x => x.1 == e.1) = some e := by
  induction l with
  | nil => cases he
  | cons a l ih =>
    rw [List.map_cons, List.nodup_cons] at hnd
    rcases List.mem_cons.mp he with rfl | hmem
    · exact List.find?_cons_of_pos l (by simp)
    · have hne : ¬ (a.1 == e.1) = true := by
        simp only [beq_iff_eq]
        intro hq
        exact hnd.1 (hq ▸ List.mem_map.mpr ⟨e, hmem, rfl⟩)
      rw [List.find?_cons_of_neg l hne]
      exact ih hnd.2 hmem

/-- `updReserved` does not change the key column. -/
theorem updReserved_keys (invs : List (ProductId × InventoryRow)) (pid : ProductId)
    (v : Nat) : (updReserved invs pid v).map (·.1) = invs.map (·.1) := by
  unfold updReserved
  rw [List.map_map]
  apply List.map_congr_left
  intro e _
  by_cases h : (e.1 == pid) = true <;> simp [Function.comp, h]

/-- The release pass does not change the key column. -/
theorem releaseInternalDb_keys (st : DBState) (rid : String) :
    (releaseInternalDb st rid).inventories.map (·.1) = st.inventories.map (·.1) := by
  rw [releaseInternalDb_inventories, List.map_map]
  apply List.map_congr_left
  intro e _
  rfl

/-- `ReleaseReservation` preserves the ledger invariant: counters only shrink
(clamped at zero), and each product's ACTIVE sum shrinks by exactly the
released amount, which keeps `reserved ≤ active-sum`. -/
theorem ledgerInv_release (st : DBState) (rid : String) (h : LedgerInv st) :
    LedgerInv (releaseReservation st rid).2 := by
  unfold releaseReservation
  split
  · exact h
  · show LedgerInv (releaseInternalDb st rid)
    constructor
    · rw [releaseInternalDb_keys]
      exact h.1
    · intro e' he'
      rw [releaseInternalDb_inventories] at he'
      obtain ⟨e, he, rfl⟩ := List.mem_map.mp he'
      have h1 := (h.2 e he).1
      have h2 := (h.2 e he).2
      have hrel := activeSum_release st rid e.1
      constructor
      · show e.2.reserved_quantity - releasedSum (activeOf st rid) e.1 ≤ e.2.quantity
        omega
      · show e.2.reserved_quantity - releasedSum (activeOf st rid) e.1 ≤
          activeSum (releaseInternalDb st rid) e.1
        show e.2.reserved_quantity - releasedSum (activeOf st rid) e.1 ≤
          activeSumL (releaseInternalDb st rid).lineItems e.1
        omega

/-- `ReserveProducts` preserves the ledger invariant.  In the rollback and
abort branches nothing changes.  In the commit branch the only counter that
moves is the last item's product's, incremented by the last item's quantity,
which the last item's own availability check bounds by
`total - active-sum`; the staged rows only enlarge each product's ACTIVE
sum. -/
theorem ledgerInv_reserve (st : DBState) (rid : String) (items : List ReqItem)
    (uid : Option String) (now : Nat) (h : LedgerInv st) :
    LedgerInv (reserveProducts st rid items uid now).2 := by
  unfold reserveProducts reserveCommit
  split
  · rename_i hb
    split
    · exact h
    · rename_i pid hlp
      split
      · exact h
      · rename_i inv hfi
        have hne : items ≠ [] := by
          intro he
          rw [he] at hlp
          simp [List.foldl_nil, initAcc] at hlp
        have hfold : items.foldl (reserveStep st rid uid now) initAcc =
            reserveStep st rid uid now
              (items.dropLast.foldl (reserveStep st rid uid now) initAcc)
              (items.getLast hne) := by
          conv_lhs => rw [← List.dropLast_append_getLast hne]
          rw [List.foldl_append]
          rfl
        have hall := reserve_all_eq st rid uid now items
        rw [hb] at hall
        have hsucc : (itemOutcome st rid uid now (items.getLast hne)).1.success = true := by
          have hx := List.all_eq_true.mp hall.symm _ (List.getLast_mem hne)
          simpa using hx
        obtain ⟨pidL, prodL, invL, hparseL, hprodL, hinvL, hactL, hqleL, hstgL⟩ :=
          itemOutcome_success_inv st rid uid now (items.getLast hne) hsucc
        have hqle2 : (items.getLast hne).quantity ≤
            invL.quantity - activeSumL st.lineItems pidL := hqleL
        have hlp2 : (items.foldl (reserveStep st rid uid now) initAcc).lastParsed =
            some pidL := by
          rw [hfold]
          simp only [reserveStep]
          rw [hparseL]
        rw [hlp2] at hlp
        injection hlp with hpid
        subst hpid
        rw [hinvL] at hfi
        injection hfi with hinv2
        subst hinv2
        have hlq : (items.foldl (reserveStep st rid uid now) initAcc).lastQty =
            (items.getLast hne).quantity := by
          rw [hfold]
          simp only [reserveStep]
        have hmemL : (⟨rid, pidL, (items.getLast hne).quantity, uid, "order-service",
            "ORDER", rid, RStatus.ACTIVE, now + 15 * 60⟩ : LineItem) ∈
            (items.foldl (reserveStep st rid uid now) initAcc).staged := by
          rw [reserve_staged_eq]
          exact List.mem_filterMap.mpr ⟨items.getLast hne, List.getLast_mem hne, hstgL⟩
        have hqstg : (items.getLast hne).quantity ≤
            activeSumL (items.foldl (reserveStep st rid uid now) initAcc).staged pidL := by
          apply List.le_sum_of_mem
          exact List.mem_map.mpr ⟨_, List.mem_filter.mpr ⟨hmemL, by simp⟩, rfl⟩
        constructor
        · show ((updReserved st.inventories pidL _).map (·.1)).Nodup
          rw [updReserved_keys]
          exact h.1
        · intro e' he'
          have he'' : e' ∈ updReserved st.inventories pidL
              (invL.reserved_quantity +
                (items.foldl (reserveStep st rid uid now) initAcc).lastQty) := he'
          unfold updReserved at he''
          obtain ⟨e, he, rfl⟩ := List.mem_map.mp he''
          have h1 := (h.2 e he).1
          have h2' : e.2.reserved_quantity ≤ activeSumL st.lineItems e.1 := (h.2 e he).2
          by_cases hk : (e.1 == pidL) = true
          · have he1 : e.1 = pidL := beq_iff_eq.mp hk
            have hfind := find?_of_mem_nodup st.inventories h.1 e he
            rw [he1] at hfind
            have hfe : findInventory st pidL = some e.2 := by
              unfold findInventory
              rw [hfind]
              rfl
            rw [hinvL] at hfe
            injection hfe with he2
            rw [if_pos hk]
            constructor
            · show invL.reserved_quantity +
                (items.foldl (reserveStep st rid uid now) initAcc).lastQty ≤ e.2.quantity
              rw [hlq, ← he2]
              rw [← he2] at h2' h1
              rw [he1] at h2'
              omega
            · show invL.reserved_quantity +
                (items.foldl (reserveStep st rid uid now) initAcc).lastQty ≤
                activeSumL (st.lineItems ++
                  (items.foldl (reserveStep st rid uid now) initAcc).staged) e.1
              rw [hlq, activeSumL_append, he1]
              rw [← he2, he1] at h2'
              omega
          · rw [if_neg hk]
            refine ⟨h1, ?_⟩
            show e.2.reserved_quantity ≤
              activeSumL (st.lineItems ++
                (items.foldl (reserveStep st rid uid now) initAcc).staged) e.1
            rw [activeSumL_append]
            omega
  · exact h

/-- The ledger invariant is preserved by every sequence of serialized
`Reserve`, `Release` and cleanup-tick operations. -/
theorem ledgerInv_runOps (s : ServicerState) (ops : List Op) (h : LedgerInv s.db) :
    LedgerInv (runOps s ops).db := by
  induction ops generalizing s with
  | nil => exact h
  | cons op rest ih =>
    show LedgerInv (runOps (applyOp s op) rest).db
    apply ih
    cases op with
    | reserve rid items uid now => exact ledgerInv_reserve s.db rid items uid now h
    | release rid => exact ledgerInv_release s.db rid h
    | tick now => exact h

/-- Claim C3 amended: from any state whose inventory rows have distinct
product ids and satisfy both `reserved_quantity ≤ total_quantity` and
`reserved_quantity ≤ sum of the product's ACTIVE rows` (the fresh, empty
ledger satisfies all three), every sequence of Reserve, Release and
expiry-sweep operations preserves `0 ≤ reserved_quantity ≤ total_quantity`,
and `total_quantity - reserved_quantity` is never negative.  The extra
`reserved ≤ ACTIVE-sum` hypothesis is necessary: the availability check reads
the ACTIVE rows and not the counter, so a counter out of sync above the
ACTIVE sum can be pushed past `total_quantity` (see the counterexample). -/
theorem C3_ledger_invariant_preserved (s : ServicerState) (ops : List Op)
    (h : LedgerInv s.db) :
    ∀ e ∈ (runOps s ops).db.inventories,
      e.2.reserved_quantity ≤ e.2.quantity ∧
      0 ≤ (e.2.quantity : Int) - (e.2.reserved_quantity : Int) := by
  intro e he
  have h2 := (ledgerInv_runOps s ops h).2 e he
  refine ⟨h2.1, ?_⟩
  have := h2.1
  omega

/-- Witness for C3 amended: a reserve, a failed over-reserve, a release and a
tick on the example product, starting from the empty ledger. -/
theorem C3_ledger_invariant_preserved_witness :
    (1, (⟨5, 0⟩ : InventoryRow)).2.reserved_quantity ≤
      (1, (⟨5, 0⟩ : InventoryRow)).2.quantity ∧
    0 ≤ ((1, (⟨5, 0⟩ : InventoryRow)).2.quantity : Int) -
      ((1, (⟨5, 0⟩ : InventoryRow)).2.reserved_quantity : Int) :=
  C3_ledger_invariant_preserved ⟨exSt5, []⟩
    [Op.reserve "r1" [⟨exIdA, 3⟩] none 0, Op.reserve "r2" [⟨exIdA, 9⟩] none 0,
     Op.release "r1", Op.tick 3600]
    (by decide) (1, ⟨5, 0⟩) (by decide)

/-- Claim C9: for any product with any initial counter value, a successful
`Reserve` of 3 under a fresh reservation id followed by a `Release` of that id
restores the product's inventory row — in particular its `reserved_quantity` —
to exactly its pre-reservation value: the commit adds 3 (the single item is
also the last item) and the release subtracts the same 3. -/
theorem C9_reserve_release_round_trip (st : DBState) (rid s : String)
    (pid : ProductId) (prod : ProductRow) (inv : InventoryRow)
    (uid : Option String) (now : Nat)
    (hfresh : activeOf st rid = [])
    (hparse : uuidParse s = some pid)
    (hprod : findProduct st pid = some prod)
    (hact : prod.is_active = true)
    (hinv : findInventory st pid = some inv)
    (havail : 3 ≤ inv.quantity - activeSum st pid) :
    ∃ resp, (reserveProducts st rid [⟨s, 3⟩] uid now).1 = RpcOut.ok resp ∧
      resp.all_reserved = true ∧
      findInventory (releaseReservation (reserveProducts st rid [⟨s, 3⟩] uid now).2 rid).2 pid
        = some inv := by
  have hnlt : ¬ (inv.quantity - activeSum st pid < 3) := Nat.not_lt.mpr havail
  have houtc : itemOutcome st rid uid now ⟨s, 3⟩ =
      (⟨s, true, 3, "Successfully reserved"⟩,
       some ⟨rid, pid, 3, uid, "order-service", "ORDER", rid, RStatus.ACTIVE,
             now + 15 * 60⟩) := by
    simp [itemOutcome, hparse, hprod, hinv, hact, hnlt]
  have hacc : ([⟨s, 3⟩] : List ReqItem).foldl (reserveStep st rid uid now) initAcc =
      ⟨[⟨s, true, 3, "Successfully reserved"⟩], true,
       [⟨rid, pid, 3, uid, "order-service", "ORDER", rid, RStatus.ACTIVE, now + 15 * 60⟩],
       some pid, 3⟩ := by
    simp [reserveStep, initAcc, houtc, hparse]
  have hres : reserveProducts st rid [⟨s, 3⟩] uid now =
      (RpcOut.ok ⟨true, [⟨s, true, 3, "Successfully reserved"⟩], rid⟩,
       { st with
           inventories := updReserved st.inventories pid (inv.reserved_quantity + 3)
           lineItems := st.lineItems ++
             [⟨rid, pid, 3, uid, "order-service", "ORDER", rid, RStatus.ACTIVE,
               now + 15 * 60⟩] }) := by
    unfold reserveProducts
    rw [hacc]
    unfold reserveCommit
    simp [hinv]
  refine ⟨⟨true, [⟨s, true, 3, "Successfully reserved"⟩], rid⟩, by rw [hres], rfl, ?_⟩
  have hres2 : (reserveProducts st rid [⟨s, 3⟩] uid now).2 =
      { st with
          inventories := updReserved st.inventories pid (inv.reserved_quantity + 3)
          lineItems := st.lineItems ++
            [⟨rid, pid, 3, uid, "order-service", "ORDER", rid, RStatus.ACTIVE,
              now + 15 * 60⟩] } := by
    rw [hres]
  have hactive1 : activeOf
      ({ st with
           inventories := updReserved st.inventories pid (inv.reserved_quantity + 3)
           lineItems := st.lineItems ++
             [⟨rid, pid, 3, uid, "order-service", "ORDER", rid, RStatus.ACTIVE,
               now + 15 * 60⟩] } : DBState) rid =
      [⟨rid, pid, 3, uid, "order-service", "ORDER", rid, RStatus.ACTIVE, now + 15 * 60⟩] := by
    show (st.lineItems ++ _).filter _ = _
    rw [List.filter_append]
    have h0 : st.lineItems.filter
        (fun li => li.reservation_id == rid && li.status == RStatus.ACTIVE) = [] := hfresh
    rw [h0]
    simp
  rw [hres2]
  unfold releaseReservation
  rw [hactive1]
  rw [if_neg (by simp)]
  show ((releaseInternalDb _ rid).inventories.find? (fun e => e.1 == pid)).map (·.2) = some inv
  rw [releaseInternalDb_inventories, hactive1]
  rw [find?_map_fst
    (fun e => (e.1, ⟨e.2.quantity, e.2.reserved_quantity - releasedSum
      [⟨rid, pid, 3, uid, "order-service", "ORDER", rid, RStatus.ACTIVE, now + 15 * 60⟩]
      e.1⟩))
    (fun e => rfl) _ pid]
  show (((updReserved st.inventories pid (inv.reserved_quantity + 3)).find?
    (fun e => e.1 == pid)).map _).map _ = some inv
  rw [show updReserved st.inventories pid (inv.reserved_quantity + 3) =
      st.inventories.map (fun e => if e.1 == pid then
        (e.1, ⟨e.2.quantity, inv.reserved_quantity + 3⟩) else e) from rfl]
  rw [find?_map_fst
    (fun e => if e.1 == pid then (e.1, ⟨e.2.quantity, inv.reserved_quantity + 3⟩) else e)
    (fun e => by by_cases h : (e.1 == pid) = true <;> simp [h]) st.inventories pid]
  obtain ⟨e0, hfind, he02⟩ : ∃ e0, st.inventories.find? (fun e => e.1 == pid) = some e0 ∧
      e0.2 = inv := by
    unfold findInventory at hinv
    cases hf : st.inventories.find? (fun e => e.1 == pid) with
    | none => rw [hf] at hinv; simp at hinv
    | some e0 =>
      rw [hf] at hinv
      simp only [Option.map_some'] at hinv
      exact ⟨e0, rfl, by injection hinv⟩
  have he01 : (e0.1 == pid) = true := by
    have h := List.find?_some hfind
    simpa using h
  rw [hfind]
  simp only [Option.map_some', he01, if_true]
  have hsum : releasedSum
      [⟨rid, pid, 3, uid, "order-service", "ORDER", rid, RStatus.ACTIVE, now + 15 * 60⟩]
      e0.1 = 3 := by
    have hpe : (pid == e0.1) = true := by
      have h := beq_iff_eq.mp he01
      simp [h]
    simp [releasedSum, hpe]
  simp only [hsum]
  rw [he02]
  simp

/-- Witness for C9: reserving 3 of the example product (counter 0) and
releasing the reservation returns the counter to 0. -/
theorem C9_reserve_release_round_trip_witness :
    ∃ resp, (reserveProducts exSt5 "r1" [⟨exIdA, 3⟩] none 0).1 = RpcOut.ok resp ∧
      resp.all_reserved = true ∧
      findInventory
          (releaseReservation (reserveProducts exSt5 "r1" [⟨exIdA, 3⟩] none 0).2 "r1").2 1
        = some ⟨5, 0⟩ :=
  C9_reserve_release_round_trip exSt5 "r1" exIdA 1 exProductA ⟨5, 0⟩ none 0
    (by decide) (by decide) (by decide) (by decide) (by decide) (by decide)

/-- Claim C1: a fully successful two-item `Reserve` does insert all staged
rows as ACTIVE with `expires_at = now + 15` minutes, but the commit block
(lines 350-360) reads the loop variables `product_id_uuid` and `quantity`
after the loop, so only the **last** item's product has its
`reserved_quantity` incremented: here product 1 requested 2 and stays at 0,
while product 2 gets its 3.  This contradicts the claim that every product in
the batch is incremented by its requested quantity. -/
theorem C1_only_last_product_incremented :
    (reserveProducts exSt2 "r1" [⟨exIdA, 2⟩, ⟨exIdB, 3⟩] none 0).1 =
      RpcOut.ok
        ⟨true,
         [⟨exIdA, true, 2, "Successfully reserved"⟩,
          ⟨exIdB, true, 3, "Successfully reserved"⟩], "r1"⟩
    ∧ (reserveProducts exSt2 "r1" [⟨exIdA, 2⟩, ⟨exIdB, 3⟩] none 0).2.lineItems =
        [⟨"r1", 1, 2, none, "order-service", "ORDER", "r1", RStatus.ACTIVE, 900⟩,
         ⟨"r1", 2, 3, none, "order-service", "ORDER", "r1", RStatus.ACTIVE, 900⟩]
    ∧ findInventory (reserveProducts exSt2 "r1" [⟨exIdA, 2⟩, ⟨exIdB, 3⟩] none 0).2 1 =
        some ⟨10, 0⟩
    ∧ findInventory (reserveProducts exSt2 "r1" [⟨exIdA, 2⟩, ⟨exIdB, 3⟩] none 0).2 2 =
        some ⟨10, 3⟩ := by
  decide

/-- Claim C3 counterexample: the state `exStBad` satisfies the claim's
hypothesis `0 ≤ reserved_quantity ≤ total_quantity` for every product, yet a
single `Reserve` of 5 (which succeeds, because the availability check reads
the ACTIVE reservation rows, not the counter) drives `reserved_quantity` to
10 > 5 = `total_quantity`. -/
theorem C3_counterexample :
    (∀ e ∈ exStBad.inventories, e.2.reserved_quantity ≤ e.2.quantity)
    ∧ findInventory
        (runOps ⟨exStBad, []⟩ [Op.reserve "r" [⟨exIdA, 5⟩] none 0]).db 1 =
        some ⟨5, 10⟩
    ∧ ¬ (∀ e ∈ (runOps ⟨exStBad, []⟩ [Op.reserve "r" [⟨exIdA, 5⟩] none 0]).db.inventories,
          e.2.reserved_quantity ≤ e.2.quantity) := by
  decide

/-- Claim C4: the servicer state `exSrv4` holds a reservation all of whose
ACTIVE rows expired before time 200, yet one cleanup tick at time 200 changes
nothing — the row stays ACTIVE and the counter stays 3 — whereas an explicit
`Release` of the same reservation marks the row terminal and decrements the
counter to 0.  The tick sweeps only the in-memory map (always empty) and its
per-id call names a method that does not exist, so the swept-equals-released
claim fails on the code. -/
theorem C4_tick_never_expires :
    cleanupTick exSrv4 200 = exSrv4
    ∧ exLi4.expires_at < 200
    ∧ exLi4.status = RStatus.ACTIVE
    ∧ findInventory (releaseReservation exSrv4.db "r1").2 1 = some ⟨5, 0⟩
    ∧ (releaseReservation exSrv4.db "r1").2.lineItems =
        [⟨"r1", 1, 3, none, "order-service", "ORDER", "r1", RStatus.RELEASED, 100⟩] := by
  decide

/-- Claim C5: against a product with total 5 and nothing reserved, two
`Reserve` calls of 3 each — which the servicer's `reservation_lock`
serializes, so any concurrent execution is equivalent to one of the two
orders, both covered by the boolean parameter — result in exactly one success
and one insufficient-stock failure, never two successes. -/
theorem C5_two_reserves_exactly_one_wins (firstIsR1 : Bool) :
    (reserveProducts exSt5 (if firstIsR1 then "r1" else "r2") [⟨exIdA, 3⟩] none 0).1 =
      RpcOut.ok
        ⟨true, [⟨exIdA, true, 3, "Successfully reserved"⟩],
         if firstIsR1 then "r1" else "r2"⟩
    ∧ (reserveProducts
        (reserveProducts exSt5 (if firstIsR1 then "r1" else "r2") [⟨exIdA, 3⟩] none 0).2
        (if firstIsR1 then "r2" else "r1") [⟨exIdA, 3⟩] none 0).1 =
      RpcOut.ok
        ⟨false,
         [⟨exIdA, false, 0, "Insufficient stock. Available: 2, Requested: 3"⟩],
         if firstIsR1 then "r2" else "r1"⟩ := by
  cases firstIsR1 <;> decide

/-- Claim C8 counterexample: a `ReserveProducts` request whose first item has
the malformed id `not-a-uuid` is not aborted with INVALID_ARGUMENT; the
handler returns a normal response carrying a per-item failure, and the second
item's insufficient-stock message reports `Available: 2`, a number obtained by
reading the inventory row and the ACTIVE reservation rows — so the ledger is
accessed despite the malformed identifier in the request. -/
theorem C8_counterexample :
    uuidParse "not-a-uuid" = none
    ∧ (reserveProducts exSt8 "r" [⟨"not-a-uuid", 1⟩, ⟨exIdA, 3⟩] none 0).1 =
        RpcOut.ok
          ⟨false,
           [⟨"not-a-uuid", false, 0, "Invalid product ID format: not-a-uuid"⟩,
            ⟨exIdA, false, 0, "Insufficient stock. Available: 2, Requested: 3"⟩], "r"⟩
    ∧ (reserveProducts exSt8 "r" [⟨"not-a-uuid", 1⟩, ⟨exIdA, 3⟩] none 0).1 ≠
        RpcOut.abort StatusCode.INVALID_ARGUMENT := by
  decide

end ECom
